import Mathlib

/-!
# Verification of the easy-crop crop-geometry engine

A shallow embedding, over exact rationals, of the crop-geometry engine of the
easy-crop image-cropping tool: target fitting, cover layout, pan clamping,
zoom-anchored repositioning, source-rectangle derivation, filename generation,
the upload guard and the atomic export batch.  JS numbers are modelled as `ℚ`,
`Math.floor` as `Int.floor` and `Math.round` as `jsRound` (round half toward
positive infinity).
-/

namespace EasyCrop

/-- A 2D vector, as the source's `Vector2D` (`types`): fields `x`, `y`. -/
structure Vector2D where
  x : ℚ
  y : ℚ
deriving DecidableEq, Repr

/-- A width/height pair, as the anonymous `{ width, height }` records used for
`layout.container` and `layout.image` in the source. -/
structure Size where
  width : ℚ
  height : ℚ
deriving DecidableEq, Repr

/-- The source's `ImageInfo` (`types`), restricted to the fields the geometry
engine reads: natural `width`, natural `height`, display `name`.  The raster
handle (`element`), data URL (`src`) and byte size are external collaborators
and carry no geometric information. -/
structure ImageInfo where
  width : ℚ
  height : ℚ
  name : String
deriving DecidableEq, Repr

/-- The source's `CropPreset` (`types`): a fixed configuration entry. -/
structure CropPreset where
  id : String
  label : String
  baseWidth : ℚ
  baseHeight : ℚ
  suffix : String
deriving DecidableEq, Repr

/-- The source's `CropTarget` (`types`): per-image derived target.  `suffix`
and `label` are optional in the source (`suffix?: string`), modelled with
`Option`. -/
structure CropTarget where
  id : String
  width : ℚ
  height : ℚ
  suffix : Option String
  label : Option String
deriving DecidableEq, Repr

/-- The source's `PreviewLayout` record returned by `calculateLayout`. -/
structure PreviewLayout where
  container : Size
  image : Size
  scaleFactor : ℚ
deriving DecidableEq, Repr

/-- Constant `PREVIEW_WIDTH = 450` from the app source. -/
def PREVIEW_WIDTH : ℚ := 450

/-- Constant `SCALE_PRESETS = [0.5, 1, 1.5, 2, 2.5]` from `constants`. -/
def SCALE_PRESETS : List ℚ := [1/2, 1, 3/2, 2, 5/2]

/-- Constant `CROP_PRESETS` from `constants`: the two fixed presets. -/
def CROP_PRESETS : List CropPreset :=
  [ { id := "mobile", label := "Mobile", baseWidth := 1055, baseHeight := 967,
      suffix := "_S" },
    { id := "desktop", label := "Desktop", baseWidth := 1024, baseHeight := 440,
      suffix := "_L" } ]

/-- JavaScript `Math.round`: rounds half toward positive infinity,
`Math.round(t) = ⌊t + 1/2⌋`. -/
def jsRound (q : ℚ) : ℤ := ⌊q + 1/2⌋

/-- Function `calculateLayout` from the app source: cover layout of the image inside a
preview container of fixed width `PREVIEW_WIDTH` whose aspect ratio is the
target's.

```js
const targetRatio = target.width / target.height;
const containerWidth = PREVIEW_WIDTH;
const containerHeight = containerWidth / targetRatio;
const imageRatio = imgInfo.width / imgInfo.height;
if (imageRatio > targetRatio) {
  renderHeight = containerHeight; renderWidth = renderHeight * imageRatio;
} else {
  renderWidth = containerWidth; renderHeight = renderWidth / imageRatio;
}
const scaleFactor = imgInfo.width / renderWidth;
``` -/
def calculateLayout (target : CropTarget) (imgInfo : ImageInfo) : PreviewLayout :=
  let targetRatio := target.width / target.height
  let containerWidth := PREVIEW_WIDTH
  let containerHeight := containerWidth / targetRatio
  let imageRatio := imgInfo.width / imgInfo.height
  let rendered : Size :=
    if imageRatio > targetRatio then
      { width := containerHeight * imageRatio, height := containerHeight }
    else
      { width := containerWidth, height := containerWidth / imageRatio }
  { container := { width := containerWidth, height := containerHeight },
    image := rendered,
    scaleFactor := imgInfo.width / rendered.width }

/-- The per-preset body of the `CROP_PRESETS.map` in `handleImageUpload`:
derive a fitted crop target from the image's natural dimensions.

```js
const ratio = preset.baseWidth / preset.baseHeight;
let targetW = imgW;
let targetH = imgW / ratio;
if (targetH > imgH) { targetH = imgH; targetW = imgH * ratio; }
return { id, label, suffix, width: Math.floor(targetW), height: Math.floor(targetH) };
``` -/
def deriveTarget (preset : CropPreset) (imgW imgH : ℚ) : CropTarget :=
  let ratio := preset.baseWidth / preset.baseHeight
  let fitted : ℚ × ℚ :=
    if imgW / ratio > imgH then (imgH * ratio, imgH) else (imgW, imgW / ratio)
  { id := preset.id, label := some preset.label, suffix := some preset.suffix,
    width := (⌊fitted.1⌋ : ℤ), height := (⌊fitted.2⌋ : ℤ) }

/-- The target derivation of `handleImageUpload`: one fitted target per preset. -/
def deriveTargets (imgW imgH : ℚ) : List CropTarget :=
  CROP_PRESETS.map (fun preset => deriveTarget preset imgW imgH)

/-- Function `clampPosition` from `CropPreview`:

```js
const minX = container.width - image.width;
const minY = container.height - image.height;
return { x: Math.min(0, Math.max(minX, pos.x)),
         y: Math.min(0, Math.max(minY, pos.y)) };
``` -/
def clampPosition (container image : Size) (pos : Vector2D) : Vector2D :=
  let minX := container.width - image.width
  let minY := container.height - image.height
  { x := min 0 (max minX pos.x), y := min 0 (max minY pos.y) }

/-- The drag handler `handleMouseMove` in `CropPreview`: the tentative new
position is the pointer position minus the drag anchor, and it is passed to
`onPositionChange` only after `clampPosition`:

```js
const newPos = { x: e.clientX - dragStart.x, y: e.clientY - dragStart.y };
onPositionChange(target.id, clampPosition(newPos));
``` -/
def handleMouseMove (container image : Size) (dragStart client : Vector2D) :
    Vector2D :=
  clampPosition container image
    { x := client.x - dragStart.x, y := client.y - dragStart.y }

/-- The pre-clamp position computed inside `handleZoomChange`: the container
center is held fixed in image space, so the offset from the image origin to
the center is scaled by `newZoom / oldZoom`. -/
def zoomPreclampPos (layout : PreviewLayout) (pos : Vector2D)
    (oldZoom newZoom : ℚ) : Vector2D :=
  let centerX := layout.container.width / 2
  let centerY := layout.container.height / 2
  let scaleChange := newZoom / oldZoom
  { x := centerX - (centerX - pos.x) * scaleChange,
    y := centerY - (centerY - pos.y) * scaleChange }

/-- The rendered image size at a given zoom, as computed in
`handleZoomChange` (`zoomedWidth`/`zoomedHeight`). -/
def zoomedSize (layout : PreviewLayout) (zoom : ℚ) : Size :=
  { width := layout.image.width * zoom, height := layout.image.height * zoom }

/-- The position update of `handleZoomChange` (the layout-parametric core):

```js
const containerCenter = { x: layout.container.width / 2, y: layout.container.height / 2 };
const offsetFromImageOrigin = { x: containerCenter.x - pos.x, y: containerCenter.y - pos.y };
const scaleChange = newZoom / oldZoom;
const newOffset = { x: offsetFromImageOrigin.x * scaleChange, y: offsetFromImageOrigin.y * scaleChange };
let newX = containerCenter.x - newOffset.x;
let newY = containerCenter.y - newOffset.y;
const zoomedWidth = layout.image.width * newZoom;
const zoomedHeight = layout.image.height * newZoom;
const minX = layout.container.width - zoomedWidth;
const minY = layout.container.height - zoomedHeight;
newX = Math.min(0, Math.max(minX, newX));
newY = Math.min(0, Math.max(minY, newY));
``` -/
def zoomReposition (layout : PreviewLayout) (pos : Vector2D)
    (oldZoom newZoom : ℚ) : Vector2D :=
  let containerCenterX := layout.container.width / 2
  let containerCenterY := layout.container.height / 2
  let scaleChange := newZoom / oldZoom
  let newX := containerCenterX - (containerCenterX - pos.x) * scaleChange
  let newY := containerCenterY - (containerCenterY - pos.y) * scaleChange
  let zoomedWidth := layout.image.width * newZoom
  let zoomedHeight := layout.image.height * newZoom
  let minX := layout.container.width - zoomedWidth
  let minY := layout.container.height - zoomedHeight
  { x := min 0 (max minX newX), y := min 0 (max minY newY) }

/-- Handler `handleZoomChange` for one target: recomputes the layout from the target
and the image, repositions, and stores the new zoom and the new (clamped)
position. -/
def handleZoomChange (target : CropTarget) (imgInfo : ImageInfo)
    (oldZoom : ℚ) (pos : Vector2D) (newZoom : ℚ) : ℚ × Vector2D :=
  (newZoom, zoomReposition (calculateLayout target imgInfo) pos oldZoom newZoom)

/-- The exact (pre-rounding) source rectangle derived in `handleCrop`:

```js
const renderedWidth = layout.image.width * zoom;
const finalScaleFactor = imageInfo.width / renderedWidth;
const sourceX = Math.abs(position.x) * finalScaleFactor;
const sourceY = Math.abs(position.y) * finalScaleFactor;
const sourceWidth = layout.container.width * finalScaleFactor;
const sourceHeight = layout.container.height * finalScaleFactor;
``` -/
structure SourceRect where
  sourceX : ℚ
  sourceY : ℚ
  sourceWidth : ℚ
  sourceHeight : ℚ
deriving DecidableEq, Repr

/-- The exact source rectangle of `handleCrop` for one target. -/
def cropSource (target : CropTarget) (imgInfo : ImageInfo) (zoom : ℚ)
    (position : Vector2D) : SourceRect :=
  let layout := calculateLayout target imgInfo
  let renderedWidth := layout.image.width * zoom
  let finalScaleFactor := imgInfo.width / renderedWidth
  { sourceX := |position.x| * finalScaleFactor,
    sourceY := |position.y| * finalScaleFactor,
    sourceWidth := layout.container.width * finalScaleFactor,
    sourceHeight := layout.container.height * finalScaleFactor }

/-- An integer rectangle: the rounded source rectangle actually passed to
`ctx.drawImage(img, Math.round(sourceX), Math.round(sourceY),
Math.round(sourceWidth), Math.round(sourceHeight), ...)`. -/
structure IntRect where
  x : ℤ
  y : ℤ
  w : ℤ
  h : ℤ
deriving DecidableEq, Repr

/-- The rounded source rectangle of `handleCrop` for one target. -/
def cropSourceRounded (target : CropTarget) (imgInfo : ImageInfo) (zoom : ℚ)
    (position : Vector2D) : IntRect :=
  let s := cropSource target imgInfo zoom position
  { x := jsRound s.sourceX, y := jsRound s.sourceY,
    w := jsRound s.sourceWidth, h := jsRound s.sourceHeight }

/-- Value `outputWidth = Math.round(target.width * scale)` from `handleCrop` and
`getOutputFilename`. -/
def outputWidth (target : CropTarget) (scale : ℚ) : ℤ :=
  jsRound (target.width * scale)

/-- Value `outputHeight = Math.round(target.height * scale)` from `handleCrop` and
`getOutputFilename`. -/
def outputHeight (target : CropTarget) (scale : ℚ) : ℤ :=
  jsRound (target.height * scale)

/-- JavaScript truthiness of an optional string: `undefined` and the empty
string are falsy, every other string is truthy. -/
def jsTruthy : Option String → Bool
  | none => false
  | some s => s != ""

/-- Function `getOutputFilename` from the app source:

```js
const w = Math.round(target.width * scale);
const h = Math.round(target.height * scale);
if (target.suffix) return `${baseName}${target.suffix}_${w}x${h}.webp`;
return `${baseName}_${w}x${h}.webp`;
``` -/
def getOutputFilename (baseName : String) (target : CropTarget) (scale : ℚ) :
    String :=
  let w := outputWidth target scale
  let h := outputHeight target scale
  if jsTruthy target.suffix then
    baseName ++ target.suffix.getD "" ++ "_" ++ toString w ++ "x" ++ toString h
      ++ ".webp"
  else
    baseName ++ "_" ++ toString w ++ "x" ++ toString h ++ ".webp"

/-- A browser `File`, restricted to the fields the uploader reads: display
`name` and declared MIME `type`. -/
structure JSFile where
  name : String
  type : String
deriving DecidableEq, Repr

/-- JavaScript `String.prototype.startsWith`, modelled on character lists. -/
def jsStartsWith (s searched : String) : Bool :=
  searched.data.isPrefixOf s.data

/-- Handler `handleFileChange` from `ImageUploader`: the first selected file (if any)
is passed to `onImageUpload` exactly when its declared type starts with
`image/`; the returned value is the file handed to the upload handler,
`none` meaning the handler is never invoked (and the uploader changes no
state itself):

```js
const file = event.target.files?.[0];
if (file && file.type.startsWith('image/')) onImageUpload(file);
``` -/
def handleFileChange (file : Option JSFile) : Option JSFile :=
  match file with
  | some f => if jsStartsWith f.type "image/" then some f else none
  | none => none

/-- Handler `handleDrop` from `ImageUploader`: same guard as `handleFileChange`, on
the first file of the drop's data transfer:

```js
const file = event.dataTransfer.files?.[0];
if (file && file.type.startsWith('image/')) onImageUpload(file);
``` -/
def handleDrop (file : Option JSFile) : Option JSFile :=
  match file with
  | some f => if jsStartsWith f.type "image/" then some f else none
  | none => none

/-- The source's `CroppedResult`: an object URL and the blob's byte size. -/
structure CroppedResult where
  url : String
  size : ℚ
deriving DecidableEq, Repr

/-- The commit step of `handleCrop`.  Each target's crop promise either
resolves with `(id, result)` (modelled `some result`) or rejects (modelled
`none`: no 2d context, `toBlob` produced no blob, or a thrown exception).
`Promise.all` rejects as soon as any promise rejects, so:

```js
try {
  const results = await Promise.all(cropPromises);
  const newCroppedImages = results.reduce((acc, curr) => { acc[curr.id] = curr.result; return acc; }, {});
  setCroppedImages(newCroppedImages);
} catch (error) {
  alert("An error occurred during cropping. ...");
}
```

The first component of the output is the stored result set after the
operation (`prev` untouched on failure, the complete fresh set — assigned
once via `setCroppedImages` — on success); the second is whether the
user-visible failure alert was raised. -/
def handleCropCommit (prev : List (String × CroppedResult))
    (outcomes : List (String × Option CroppedResult)) :
    List (String × CroppedResult) × Bool :=
  if outcomes.all (fun o => o.2.isSome) then
    (outcomes.filterMap (fun o => o.2.map (fun r => (o.1, r))), false)
  else
    (prev, true)

/-- The initial pan position set by `handleImageUpload` for one target:

```js
const layout = calculateLayout(target, newImageInfo);
acc[target.id] = { x: (layout.container.width - layout.image.width) / 2,
                   y: (layout.container.height - layout.image.height) / 2 };
``` -/
def initialPosition (target : CropTarget) (imgInfo : ImageInfo) : Vector2D :=
  let layout := calculateLayout target imgInfo
  { x := (layout.container.width - layout.image.width) / 2,
    y := (layout.container.height - layout.image.height) / 2 }

/-- The per-target mutable state of the app (one entry of the keyed
`cropPositions` / `zoomLevels` / `targetScales` records). -/
structure TargetState where
  position : Vector2D
  zoom : ℚ
  scale : ℚ
deriving DecidableEq, Repr

/-- The per-target state established by `handleImageUpload` right after a
successful upload: zoom 1, output scale 1, centered position. -/
def uploadInit (imgInfo : ImageInfo) : List (CropTarget × TargetState) :=
  (deriveTargets imgInfo.width imgInfo.height).map fun t =>
    (t, { position := initialPosition t imgInfo, zoom := 1, scale := 1 })

/-! ## Helper lemmas about the cover layout -/

/-- The container returned by `calculateLayout`: fixed width `PREVIEW_WIDTH`,
height `PREVIEW_WIDTH` divided by the target's aspect ratio. -/
lemma calculateLayout_container (t : CropTarget) (img : ImageInfo) :
    (calculateLayout t img).container =
      ⟨PREVIEW_WIDTH, PREVIEW_WIDTH / (t.width / t.height)⟩ := rfl

/-- The rendered image size returned by `calculateLayout`, by branch. -/
lemma calculateLayout_image (t : CropTarget) (img : ImageInfo) :
    (calculateLayout t img).image =
      if img.width / img.height > t.width / t.height then
        ⟨PREVIEW_WIDTH / (t.width / t.height) * (img.width / img.height),
          PREVIEW_WIDTH / (t.width / t.height)⟩
      else
        ⟨PREVIEW_WIDTH, PREVIEW_WIDTH / (img.width / img.height)⟩ := rfl

/-- For positive targets and images the rendered image is positive in both
axes. -/
lemma calculateLayout_image_pos (t : CropTarget) (img : ImageInfo)
    (htw : 0 < t.width) (hth : 0 < t.height)
    (hw : 0 < img.width) (hh : 0 < img.height) :
    0 < (calculateLayout t img).image.width ∧
      0 < (calculateLayout t img).image.height := by
  have hrt : 0 < t.width / t.height := div_pos htw hth
  have hri : 0 < img.width / img.height := div_pos hw hh
  have hpw : (0 : ℚ) < PREVIEW_WIDTH := by norm_num [PREVIEW_WIDTH]
  have hch : 0 < PREVIEW_WIDTH / (t.width / t.height) := div_pos hpw hrt
  rw [calculateLayout_image]
  split_ifs with h
  · exact ⟨mul_pos hch hri, hch⟩
  · exact ⟨hpw, div_pos hpw hri⟩

/-- Cover guarantee: the rendered image is at least as large as the container
in both axes. -/
lemma calculateLayout_cover (t : CropTarget) (img : ImageInfo)
    (htw : 0 < t.width) (hth : 0 < t.height)
    (hw : 0 < img.width) (hh : 0 < img.height) :
    (calculateLayout t img).container.width ≤
        (calculateLayout t img).image.width ∧
      (calculateLayout t img).container.height ≤
        (calculateLayout t img).image.height := by
  have hrt : 0 < t.width / t.height := div_pos htw hth
  have hri : 0 < img.width / img.height := div_pos hw hh
  have hpw : (0 : ℚ) < PREVIEW_WIDTH := by norm_num [PREVIEW_WIDTH]
  have hch : 0 < PREVIEW_WIDTH / (t.width / t.height) := div_pos hpw hrt
  rw [calculateLayout_image, calculateLayout_container]
  split_ifs with h
  · refine ⟨?_, le_refl _⟩
    calc PREVIEW_WIDTH = PREVIEW_WIDTH / (t.width / t.height) * (t.width / t.height) := by
          field_simp
      _ ≤ PREVIEW_WIDTH / (t.width / t.height) * (img.width / img.height) := by
          exact mul_le_mul_of_nonneg_left (le_of_lt h) (le_of_lt hch)
  · refine ⟨le_refl _, ?_⟩
    exact div_le_div_of_nonneg_left (le_of_lt hpw) hri (not_lt.mp h)

/-- The cover layout preserves the image's aspect ratio:
`image.width * H = image.height * W`. -/
lemma calculateLayout_ratio (t : CropTarget) (img : ImageInfo)
    (hw : 0 < img.width) (hh : 0 < img.height) :
    (calculateLayout t img).image.width * img.height =
      (calculateLayout t img).image.height * img.width := by
  rw [calculateLayout_image]
  split_ifs with h
  · show PREVIEW_WIDTH / (t.width / t.height) * (img.width / img.height) * img.height =
      PREVIEW_WIDTH / (t.width / t.height) * img.width
    rw [mul_assoc, div_mul_cancel₀ _ hh.ne']
  · show PREVIEW_WIDTH * img.height = PREVIEW_WIDTH / (img.width / img.height) * img.width
    rw [div_div_eq_mul_div, div_mul_cancel₀ _ hw.ne', mul_comm]

/-! ## C1: target fitting -/

/-- C1.  Target fitting: for every image with natural width `W > 0` and
height `H > 0` and every preset with ratio `r = baseWidth / baseHeight`, the
fitting algorithm first forms candidate `(W, W/r)`; if and only if `W/r > H`
it refits to `(H*r, H)`; both output dimensions are floored to integers; the
result satisfies `width ≤ W`, `height ≤ H` and preserves `r` up to
integer-rounding tolerance (the floored outputs are the floors of an exact
pair of ratio exactly `r` within the image bounds).  In particular, image
2000×1000 with ratio 1055/967 gives target (1091, 1000). -/
theorem targetFitting_spec (i l s : String) (W H : ℕ) (bW bH : ℚ)
    (hW : 0 < W) (hH : 0 < H) (hbW : 0 < bW) (hbH : 0 < bH) :
    ((W : ℚ) / (bW / bH) > (H : ℚ) →
      (deriveTarget ⟨i, l, bW, bH, s⟩ (W : ℚ) (H : ℚ)).width =
          (⌊(H : ℚ) * (bW / bH)⌋ : ℤ) ∧
        (deriveTarget ⟨i, l, bW, bH, s⟩ (W : ℚ) (H : ℚ)).height = (H : ℚ)) ∧
    (¬ ((W : ℚ) / (bW / bH) > (H : ℚ)) →
      (deriveTarget ⟨i, l, bW, bH, s⟩ (W : ℚ) (H : ℚ)).width = (W : ℚ) ∧
        (deriveTarget ⟨i, l, bW, bH, s⟩ (W : ℚ) (H : ℚ)).height =
          (⌊(W : ℚ) / (bW / bH)⌋ : ℤ)) ∧
    (deriveTarget ⟨i, l, bW, bH, s⟩ (W : ℚ) (H : ℚ)).width ≤ (W : ℚ) ∧
    (deriveTarget ⟨i, l, bW, bH, s⟩ (W : ℚ) (H : ℚ)).height ≤ (H : ℚ) ∧
    (∃ w h : ℚ, w / h = bW / bH ∧
      (deriveTarget ⟨i, l, bW, bH, s⟩ (W : ℚ) (H : ℚ)).width = (⌊w⌋ : ℤ) ∧
      (deriveTarget ⟨i, l, bW, bH, s⟩ (W : ℚ) (H : ℚ)).height = (⌊h⌋ : ℤ) ∧
      w ≤ (W : ℚ) ∧ h ≤ (H : ℚ)) ∧
    deriveTarget ⟨"mobile", "Mobile", 1055, 967, "_S"⟩ 2000 1000 =
      ⟨"mobile", 1091, 1000, some "_S", some "Mobile"⟩ := by
  have hr : 0 < bW / bH := div_pos hbW hbH
  have hWQ : (0 : ℚ) < (W : ℚ) := by exact_mod_cast hW
  have hHQ : (0 : ℚ) < (H : ℚ) := by exact_mod_cast hH
  have hW0 : (W : ℚ) ≠ 0 := hWQ.ne'
  have hbW0 : bW ≠ 0 := hbW.ne'
  have hbH0 : bH ≠ 0 := hbH.ne'
  refine ⟨?_, ?_, ?_, ?_, ?_, ?_⟩
  · intro hc
    simp [deriveTarget, hc]
  · intro hc
    simp [deriveTarget, hc]
  · by_cases hc : (W : ℚ) / (bW / bH) > (H : ℚ)
    · simp only [deriveTarget, if_pos hc]
      have hlt : (H : ℚ) * (bW / bH) < (W : ℚ) := (lt_div_iff₀ hr).mp hc
      exact le_trans (Int.floor_le _) (le_of_lt hlt)
    · simp only [deriveTarget, if_neg hc]
      simp
  · by_cases hc : (W : ℚ) / (bW / bH) > (H : ℚ)
    · simp only [deriveTarget, if_pos hc]
      simp
    · simp only [deriveTarget, if_neg hc]
      exact le_trans (Int.floor_le _) (not_lt.mp hc)
  · by_cases hc : (W : ℚ) / (bW / bH) > (H : ℚ)
    · refine ⟨(H : ℚ) * (bW / bH), (H : ℚ), ?_, ?_, ?_, ?_, le_refl _⟩
      · exact mul_div_cancel_left₀ _ hHQ.ne'
      · simp only [deriveTarget, if_pos hc]
      · simp only [deriveTarget, if_pos hc]
      · exact le_of_lt ((lt_div_iff₀ hr).mp hc)
    · refine ⟨(W : ℚ), (W : ℚ) / (bW / bH), ?_, ?_, ?_, le_refl _, ?_⟩
      · field_simp
        ring
      · simp only [deriveTarget, if_neg hc]
      · simp only [deriveTarget, if_neg hc]
      · exact not_lt.mp hc
  · have hcond : (2000 : ℚ) / (1055 / 967) > 1000 := by norm_num
    simp only [deriveTarget, CropTarget.mk.injEq, hcond, if_true]
    norm_num

/-- C1 witness: the fitting theorem instantiated at image 2000×1000 and the
mobile preset yields the target (1091, 1000). -/
theorem targetFitting_witness :
    deriveTarget ⟨"mobile", "Mobile", 1055, 967, "_S"⟩ 2000 1000 =
      ⟨"mobile", 1091, 1000, some "_S", some "Mobile"⟩ :=
  (targetFitting_spec "mobile" "Mobile" "_S" 2000 1000 1055 967
    (by norm_num) (by norm_num) (by norm_num) (by norm_num)).2.2.2.2.2

/-! ## C2: cover layout -/

/-- C2 counterexample: for container width 450, target ratio 1091/1000 and
image 2000×1000 the cover layout does NOT render at exactly 825 × 412.5 as
the claim states: the exact render height is 450000/1091 ≈ 412.466 and the
exact render width is 900000/1091 ≈ 824.931. -/
theorem coverLayout_counterexample :
    ¬ ((calculateLayout ⟨"mobile", 1091, 1000, some "_S", some "Mobile"⟩
            ⟨2000, 1000, "img"⟩).image.height = 825 / 2 ∧
        (calculateLayout ⟨"mobile", 1091, 1000, some "_S", some "Mobile"⟩
            ⟨2000, 1000, "img"⟩).image.width = 825) := by
  intro h
  have h1 := h.1
  rw [calculateLayout_image] at h1
  norm_num [PREVIEW_WIDTH] at h1

/-- C2 amended.  Cover layout: for every target and image with positive
dimensions, with container width `Cw = PREVIEW_WIDTH = 450` and container
height `Ch = Cw / (target.width / target.height)`: if the image ratio
exceeds the target ratio the layout sets `renderHeight = Ch` and
`renderWidth = Ch * imageRatio`, else `renderWidth = Cw` and
`renderHeight = Cw / imageRatio`; in all cases `renderWidth ≥ Cw` and
`renderHeight ≥ Ch`.  For container width 450, target ratio 1091/1000 and
image 2000×1000 this yields `renderWidth = 900000/1091` (≈ 824.931) and
`renderHeight = 450000/1091` (≈ 412.466) — not exactly 825 × 412.5 as the
original claim stated. -/
theorem coverLayout_spec (t : CropTarget) (img : ImageInfo)
    (htw : 0 < t.width) (hth : 0 < t.height)
    (hw : 0 < img.width) (hh : 0 < img.height) :
    (calculateLayout t img).container.width = PREVIEW_WIDTH ∧
    (calculateLayout t img).container.height =
      PREVIEW_WIDTH / (t.width / t.height) ∧
    (img.width / img.height > t.width / t.height →
      (calculateLayout t img).image.height =
          (calculateLayout t img).container.height ∧
        (calculateLayout t img).image.width =
          (calculateLayout t img).container.height *
            (img.width / img.height)) ∧
    (¬ (img.width / img.height > t.width / t.height) →
      (calculateLayout t img).image.width =
          (calculateLayout t img).container.width ∧
        (calculateLayout t img).image.height =
          (calculateLayout t img).container.width /
            (img.width / img.height)) ∧
    (calculateLayout t img).container.width ≤
      (calculateLayout t img).image.width ∧
    (calculateLayout t img).container.height ≤
      (calculateLayout t img).image.height ∧
    (calculateLayout ⟨"mobile", 1091, 1000, some "_S", some "Mobile"⟩
        ⟨2000, 1000, "img"⟩).image = ⟨900000 / 1091, 450000 / 1091⟩ := by
  refine ⟨rfl, rfl, ?_, ?_, (calculateLayout_cover t img htw hth hw hh).1,
    (calculateLayout_cover t img htw hth hw hh).2, ?_⟩
  · intro hgt
    rw [calculateLayout_container, calculateLayout_image, if_pos hgt]
    exact ⟨rfl, rfl⟩
  · intro hle
    rw [calculateLayout_container, calculateLayout_image, if_neg hle]
    exact ⟨rfl, rfl⟩
  · rw [calculateLayout_image]
    norm_num [PREVIEW_WIDTH]

/-- C2 witness: the amended layout theorem instantiated at the fitted mobile
target of a 2000×1000 image. -/
theorem coverLayout_witness :
    (calculateLayout ⟨"mobile", 1091, 1000, some "_S", some "Mobile"⟩
        ⟨2000, 1000, "img"⟩).image = ⟨900000 / 1091, 450000 / 1091⟩ :=
  (coverLayout_spec ⟨"mobile", 1091, 1000, some "_S", some "Mobile"⟩
    ⟨2000, 1000, "img"⟩ (by norm_num) (by norm_num) (by norm_num)
    (by norm_num)).2.2.2.2.2.2

/-! ## C3: pan clamping -/

/-- C3.  Pan clamping: for every pan position and container/rendered sizes
with `Iw ≥ Cw` and `Ih ≥ Ch`, the clamp returns
`(min(0, max(Cw − Iw, x)), min(0, max(Ch − Ih, y)))`, every post-clamp
position satisfies `Cw − Iw ≤ x ≤ 0` and `Ch − Ih ≤ y ≤ 0`, and the clamp
is applied after every drag delta (`handleMouseMove`) and after every zoom
change (`zoomReposition` factors through `clampPosition` against the zoomed
rendered size). -/
theorem panClamp_spec (c im : Size) (pos : Vector2D)
    (hwc : c.width ≤ im.width) (hhc : c.height ≤ im.height) :
    clampPosition c im pos =
      ⟨min 0 (max (c.width - im.width) pos.x),
        min 0 (max (c.height - im.height) pos.y)⟩ ∧
    c.width - im.width ≤ (clampPosition c im pos).x ∧
    (clampPosition c im pos).x ≤ 0 ∧
    c.height - im.height ≤ (clampPosition c im pos).y ∧
    (clampPosition c im pos).y ≤ 0 ∧
    (∀ (layout : PreviewLayout) (p : Vector2D) (oldZoom newZoom : ℚ),
      zoomReposition layout p oldZoom newZoom =
        clampPosition layout.container (zoomedSize layout newZoom)
          (zoomPreclampPos layout p oldZoom newZoom)) ∧
    (∀ (c' im' : Size) (dragStart client : Vector2D),
      handleMouseMove c' im' dragStart client =
        clampPosition c' im'
          ⟨client.x - dragStart.x, client.y - dragStart.y⟩) := by
  refine ⟨rfl, ?_, ?_, ?_, ?_, fun _ _ _ _ => rfl, fun _ _ _ _ => rfl⟩
  · exact le_min (sub_nonpos.mpr hwc) (le_max_left _ _)
  · exact min_le_left _ _
  · exact le_min (sub_nonpos.mpr hhc) (le_max_left _ _)
  · exact min_le_left _ _

/-- C3 witness: the clamp theorem instantiated at container 450×400,
rendered image 800×500 and the out-of-bounds position (5, −600). -/
theorem panClamp_witness :
    (450 : ℚ) - 800 ≤ (clampPosition ⟨450, 400⟩ ⟨800, 500⟩ ⟨5, -600⟩).x ∧
    (clampPosition ⟨450, 400⟩ ⟨800, 500⟩ ⟨5, -600⟩).x ≤ 0 ∧
    (400 : ℚ) - 500 ≤ (clampPosition ⟨450, 400⟩ ⟨800, 500⟩ ⟨5, -600⟩).y ∧
    (clampPosition ⟨450, 400⟩ ⟨800, 500⟩ ⟨5, -600⟩).y ≤ 0 :=
  ⟨(panClamp_spec ⟨450, 400⟩ ⟨800, 500⟩ ⟨5, -600⟩ (by norm_num)
      (by norm_num)).2.1,
    (panClamp_spec ⟨450, 400⟩ ⟨800, 500⟩ ⟨5, -600⟩ (by norm_num)
      (by norm_num)).2.2.1,
    (panClamp_spec ⟨450, 400⟩ ⟨800, 500⟩ ⟨5, -600⟩ (by norm_num)
      (by norm_num)).2.2.2.1,
    (panClamp_spec ⟨450, 400⟩ ⟨800, 500⟩ ⟨5, -600⟩ (by norm_num)
      (by norm_num)).2.2.2.2.1⟩

/-! ## C4: zoom-anchored repositioning -/

/-- C4.  Zoom-anchored repositioning: for every zoom change the new
pre-clamp position equals `center − (center − p) * (zNew / zOld)` and is
then clamped against the zoomed rendered size `(Iw * zNew, Ih * zNew)`.
Concretely, position (−100, −50) with zoom 1 → 1.5 at container 450×412.5
and rendered image 825×412.5 gives (−262.5, −178.125), which the clamp
leaves unchanged. -/
theorem zoomRepositionAnchored_spec :
    (∀ (layout : PreviewLayout) (pos : Vector2D) (zOld zNew : ℚ),
      zoomReposition layout pos zOld zNew =
        clampPosition layout.container (zoomedSize layout zNew)
          ⟨layout.container.width / 2
              - (layout.container.width / 2 - pos.x) * (zNew / zOld),
            layout.container.height / 2
              - (layout.container.height / 2 - pos.y) * (zNew / zOld)⟩) ∧
    zoomReposition ⟨⟨450, 825 / 2⟩, ⟨825, 825 / 2⟩, 2000 / 825⟩
        ⟨-100, -50⟩ 1 (3 / 2) = ⟨-525 / 2, -1425 / 8⟩ := by
  constructor
  · intro layout pos zOld zNew
    rfl
  · norm_num [zoomReposition, clampPosition, min_def, max_def]

/-! ## C6: zoom round-trip -/

/-- The clamp is the identity on positions already within bounds. -/
lemma clampPosition_eq_self (c im : Size) (pos : Vector2D)
    (hx1 : c.width - im.width ≤ pos.x) (hx2 : pos.x ≤ 0)
    (hy1 : c.height - im.height ≤ pos.y) (hy2 : pos.y ≤ 0) :
    clampPosition c im pos = pos := by
  cases pos with
  | mk px py =>
    simp only [clampPosition, Vector2D.mk.injEq]
    exact ⟨by rw [max_eq_right hx1, min_eq_right hx2],
      by rw [max_eq_right hy1, min_eq_right hy2]⟩

/-- C6.  Zoom round-trip: zooming from `z` to `z'` and back to `z`, with no
intervening drag, restores the original pan position, modulo clamping — that
is, exactly, whenever the starting position satisfies the clamp bounds at
zoom `z` and the intermediate pre-clamp position satisfies them at zoom `z'`
(so that neither clamp alters its input; when a clamp does fire the round
trip may legitimately move the position). -/
theorem zoomRoundTrip_restores (layout : PreviewLayout) (pos : Vector2D)
    (z z' : ℚ) (hz : 0 < z) (hz' : 0 < z')
    (hx1 : layout.container.width - layout.image.width * z ≤ pos.x)
    (hx2 : pos.x ≤ 0)
    (hy1 : layout.container.height - layout.image.height * z ≤ pos.y)
    (hy2 : pos.y ≤ 0)
    (hp1 : layout.container.width - layout.image.width * z' ≤
      (zoomPreclampPos layout pos z z').x)
    (hp2 : (zoomPreclampPos layout pos z z').x ≤ 0)
    (hp3 : layout.container.height - layout.image.height * z' ≤
      (zoomPreclampPos layout pos z z').y)
    (hp4 : (zoomPreclampPos layout pos z z').y ≤ 0) :
    zoomReposition layout (zoomReposition layout pos z z') z' z = pos := by
  have hz0 : z ≠ 0 := hz.ne'
  have hz'0 : z' ≠ 0 := hz'.ne'
  have hstep1 : zoomReposition layout pos z z' =
      zoomPreclampPos layout pos z z' := by
    show clampPosition layout.container (zoomedSize layout z')
      (zoomPreclampPos layout pos z z') = zoomPreclampPos layout pos z z'
    exact clampPosition_eq_self _ _ _ hp1 hp2 hp3 hp4
  rw [hstep1]
  have hinv : zoomPreclampPos layout (zoomPreclampPos layout pos z z') z' z =
      pos := by
    cases pos with
    | mk px py =>
      simp only [zoomPreclampPos, Vector2D.mk.injEq]
      constructor <;> (field_simp; ring)
  show clampPosition layout.container (zoomedSize layout z)
    (zoomPreclampPos layout (zoomPreclampPos layout pos z z') z' z) = pos
  rw [hinv]
  exact clampPosition_eq_self _ _ _ hx1 hx2 hy1 hy2

/-- C6 witness: round trip 2 → 1.5 → 2 on a 450×450 container with base
rendered image 450×450, starting at (−100, −100): both clamps are inactive
and the position is restored exactly. -/
theorem zoomRoundTrip_witness :
    zoomReposition ⟨⟨450, 450⟩, ⟨450, 450⟩, 1⟩
        (zoomReposition ⟨⟨450, 450⟩, ⟨450, 450⟩, 1⟩ ⟨-100, -100⟩ 2 (3 / 2))
        (3 / 2) 2 = ⟨-100, -100⟩ :=
  zoomRoundTrip_restores ⟨⟨450, 450⟩, ⟨450, 450⟩, 1⟩ ⟨-100, -100⟩ 2 (3 / 2)
    (by norm_num) (by norm_num) (by norm_num) (by norm_num) (by norm_num)
    (by norm_num) (by norm_num [zoomPreclampPos])
    (by norm_num [zoomPreclampPos]) (by norm_num [zoomPreclampPos])
    (by norm_num [zoomPreclampPos])

/-! ## C5: source-rectangle containment -/

/-- Rounding via `Math.round` keeps a nonnegative quantity nonnegative. -/
lemma jsRound_nonneg (a : ℚ) (h : 0 ≤ a) : 0 ≤ jsRound a :=
  Int.le_floor.mpr (by push_cast; linarith)

/-- Two `Math.round`s jointly overshoot an exact bound by at most 1. -/
lemma jsRound_pair_bound (a b W : ℚ) (h : a + b ≤ W) :
    ((jsRound a : ℤ) : ℚ) + ((jsRound b : ℤ) : ℚ) ≤ W + 1 := by
  have ha : ((jsRound a : ℤ) : ℚ) ≤ a + 1 / 2 := Int.floor_le _
  have hb : ((jsRound b : ℤ) : ℚ) ≤ b + 1 / 2 := Int.floor_le _
  linarith

/-- C5 amended.  Source-rectangle containment holds exactly before rounding:
for every positive target and image, zoom `z ≥ 1` and pan position within
the clamp bounds against the zoomed rendered size, the exact source
rectangle satisfies `0 ≤ sourceX`, `0 ≤ sourceY`,
`sourceX + sourceWidth ≤ W` and `sourceY + sourceHeight ≤ H`.  After
`Math.round` the rectangle's coordinates stay nonnegative but its far edges
are only guaranteed to within one pixel: `x + w ≤ W + 1` and
`y + h ≤ H + 1` (and the slack is attained, see the counterexample). -/
theorem sourceRect_bounds (t : CropTarget) (img : ImageInfo) (zoom : ℚ)
    (pos : Vector2D)
    (htw : 0 < t.width) (hth : 0 < t.height)
    (hw : 0 < img.width) (hh : 0 < img.height) (hz : 1 ≤ zoom)
    (hx1 : (calculateLayout t img).container.width -
      (calculateLayout t img).image.width * zoom ≤ pos.x)
    (hx2 : pos.x ≤ 0)
    (hy1 : (calculateLayout t img).container.height -
      (calculateLayout t img).image.height * zoom ≤ pos.y)
    (hy2 : pos.y ≤ 0) :
    0 ≤ (cropSource t img zoom pos).sourceX ∧
    0 ≤ (cropSource t img zoom pos).sourceY ∧
    (cropSource t img zoom pos).sourceX +
        (cropSource t img zoom pos).sourceWidth ≤ img.width ∧
    (cropSource t img zoom pos).sourceY +
        (cropSource t img zoom pos).sourceHeight ≤ img.height ∧
    0 ≤ (cropSourceRounded t img zoom pos).x ∧
    0 ≤ (cropSourceRounded t img zoom pos).y ∧
    ((cropSourceRounded t img zoom pos).x : ℚ) +
        ((cropSourceRounded t img zoom pos).w : ℚ) ≤ img.width + 1 ∧
    ((cropSourceRounded t img zoom pos).y : ℚ) +
        ((cropSourceRounded t img zoom pos).h : ℚ) ≤ img.height + 1 := by
  obtain ⟨hIw, hIh⟩ := calculateLayout_image_pos t img htw hth hw hh
  have hratio := calculateLayout_ratio t img hw hh
  have hz0 : (0 : ℚ) < zoom := lt_of_lt_of_le one_pos hz
  have hrw : (0 : ℚ) < (calculateLayout t img).image.width * zoom :=
    mul_pos hIw hz0
  have hfsf : (0 : ℚ) <
      img.width / ((calculateLayout t img).image.width * zoom) :=
    div_pos hw hrw
  have hsx : 0 ≤ |pos.x| *
      (img.width / ((calculateLayout t img).image.width * zoom)) :=
    mul_nonneg (abs_nonneg _) hfsf.le
  have hsy : 0 ≤ |pos.y| *
      (img.width / ((calculateLayout t img).image.width * zoom)) :=
    mul_nonneg (abs_nonneg _) hfsf.le
  have habsx : |pos.x| + (calculateLayout t img).container.width ≤
      (calculateLayout t img).image.width * zoom := by
    rw [abs_of_nonpos hx2]; linarith
  have habsy : |pos.y| + (calculateLayout t img).container.height ≤
      (calculateLayout t img).image.height * zoom := by
    rw [abs_of_nonpos hy2]; linarith
  have hxw : (|pos.x| + (calculateLayout t img).container.width) *
      (img.width / ((calculateLayout t img).image.width * zoom)) ≤
      img.width := by
    calc (|pos.x| + (calculateLayout t img).container.width) *
        (img.width / ((calculateLayout t img).image.width * zoom))
        ≤ ((calculateLayout t img).image.width * zoom) *
            (img.width / ((calculateLayout t img).image.width * zoom)) :=
          mul_le_mul_of_nonneg_right habsx hfsf.le
      _ = img.width := by rw [mul_comm, div_mul_cancel₀ _ hrw.ne']
  have hkey : ((calculateLayout t img).image.height * zoom) *
      (img.width / ((calculateLayout t img).image.width * zoom)) =
      img.height := by
    field_simp
    linear_combination zoom * hratio.symm
  have hyh : (|pos.y| + (calculateLayout t img).container.height) *
      (img.width / ((calculateLayout t img).image.width * zoom)) ≤
      img.height := by
    calc (|pos.y| + (calculateLayout t img).container.height) *
        (img.width / ((calculateLayout t img).image.width * zoom))
        ≤ ((calculateLayout t img).image.height * zoom) *
            (img.width / ((calculateLayout t img).image.width * zoom)) :=
          mul_le_mul_of_nonneg_right habsy hfsf.le
      _ = img.height := hkey
  have habx : |pos.x| *
        (img.width / ((calculateLayout t img).image.width * zoom)) +
      (calculateLayout t img).container.width *
        (img.width / ((calculateLayout t img).image.width * zoom)) ≤
      img.width := by
    rw [← add_mul]; exact hxw
  have haby : |pos.y| *
        (img.width / ((calculateLayout t img).image.width * zoom)) +
      (calculateLayout t img).container.height *
        (img.width / ((calculateLayout t img).image.width * zoom)) ≤
      img.height := by
    rw [← add_mul]; exact hyh
  simp only [cropSource, cropSourceRounded]
  exact ⟨hsx, hsy, habx, haby, jsRound_nonneg _ hsx, jsRound_nonneg _ hsy,
    jsRound_pair_bound _ _ _ habx, jsRound_pair_bound _ _ _ haby⟩

/-- C5 counterexample: containment fails after rounding.  The mobile preset
on a 1055×967 image yields the fitted target 1055×967; at zoom 2 (within
the slider range) and clamped position (−450, 0) — which satisfies the §4.3
bounds against the zoomed rendered size — the rounded source rectangle has
`x = round(527.5) = 528` and `w = round(527.5) = 528`, so `x + w = 1056 >
1055 = W`: the rectangle is NOT fully contained within `[0, W]`. -/
theorem sourceRect_counterexample :
    deriveTarget ⟨"mobile", "Mobile", 1055, 967, "_S"⟩ 1055 967 =
      ⟨"mobile", 1055, 967, some "_S", some "Mobile"⟩ ∧
    (1 : ℚ) ≤ 2 ∧
    (calculateLayout ⟨"mobile", 1055, 967, some "_S", some "Mobile"⟩
          ⟨1055, 967, "img"⟩).container.width -
        (calculateLayout ⟨"mobile", 1055, 967, some "_S", some "Mobile"⟩
          ⟨1055, 967, "img"⟩).image.width * 2 ≤ (-450 : ℚ) ∧
    (-450 : ℚ) ≤ 0 ∧
    (calculateLayout ⟨"mobile", 1055, 967, some "_S", some "Mobile"⟩
          ⟨1055, 967, "img"⟩).container.height -
        (calculateLayout ⟨"mobile", 1055, 967, some "_S", some "Mobile"⟩
          ⟨1055, 967, "img"⟩).image.height * 2 ≤ (0 : ℚ) ∧
    (0 : ℚ) ≤ 0 ∧
    (cropSourceRounded ⟨"mobile", 1055, 967, some "_S", some "Mobile"⟩
        ⟨1055, 967, "img"⟩ 2 ⟨-450, 0⟩).x = 528 ∧
    (cropSourceRounded ⟨"mobile", 1055, 967, some "_S", some "Mobile"⟩
        ⟨1055, 967, "img"⟩ 2 ⟨-450, 0⟩).w = 528 ∧
    ¬ ((cropSourceRounded ⟨"mobile", 1055, 967, some "_S", some "Mobile"⟩
          ⟨1055, 967, "img"⟩ 2 ⟨-450, 0⟩).x +
        (cropSourceRounded ⟨"mobile", 1055, 967, some "_S", some "Mobile"⟩
          ⟨1055, 967, "img"⟩ 2 ⟨-450, 0⟩).w ≤ 1055) := by
  have habs : |(-450 : ℚ)| = 450 := by
    rw [abs_of_nonpos (by norm_num)]; norm_num
  have habs0 : |(0 : ℚ)| = 0 := abs_zero
  refine ⟨?_, by norm_num, ?_, by norm_num, ?_, le_refl _, ?_, ?_, ?_⟩
  · have hcond : ¬ ((1055 : ℚ) / (1055 / 967) > 967) := by norm_num
    simp only [deriveTarget, CropTarget.mk.injEq, hcond, if_false]
    norm_num
  · rw [calculateLayout_container, calculateLayout_image]
    norm_num [PREVIEW_WIDTH]
  · rw [calculateLayout_container, calculateLayout_image]
    norm_num [PREVIEW_WIDTH]
  · simp only [cropSourceRounded, cropSource, jsRound, calculateLayout,
      PREVIEW_WIDTH, habs]
    norm_num
  · simp only [cropSourceRounded, cropSource, jsRound, calculateLayout,
      PREVIEW_WIDTH, habs]
    norm_num
  · simp only [cropSourceRounded, cropSource, jsRound, calculateLayout,
      PREVIEW_WIDTH, habs]
    norm_num

/-- C5 witness: the amended bounds theorem instantiated at the fitted
mobile target of a 2000×1000 image, zoom 1, position (−100, 0). -/
theorem sourceRect_witness :
    0 ≤ (cropSource ⟨"mobile", 1091, 1000, some "_S", some "Mobile"⟩
        ⟨2000, 1000, "img"⟩ 1 ⟨-100, 0⟩).sourceX ∧
    (cropSource ⟨"mobile", 1091, 1000, some "_S", some "Mobile"⟩
          ⟨2000, 1000, "img"⟩ 1 ⟨-100, 0⟩).sourceX +
        (cropSource ⟨"mobile", 1091, 1000, some "_S", some "Mobile"⟩
          ⟨2000, 1000, "img"⟩ 1 ⟨-100, 0⟩).sourceWidth ≤ 2000 ∧
    ((cropSourceRounded ⟨"mobile", 1091, 1000, some "_S", some "Mobile"⟩
          ⟨2000, 1000, "img"⟩ 1 ⟨-100, 0⟩).x : ℚ) +
        ((cropSourceRounded ⟨"mobile", 1091, 1000, some "_S", some "Mobile"⟩
          ⟨2000, 1000, "img"⟩ 1 ⟨-100, 0⟩).w : ℚ) ≤ 2000 + 1 := by
  have h := sourceRect_bounds ⟨"mobile", 1091, 1000, some "_S", some "Mobile"⟩
    ⟨2000, 1000, "img"⟩ 1 ⟨-100, 0⟩ (by norm_num) (by norm_num) (by norm_num)
    (by norm_num) (by norm_num)
    (by rw [calculateLayout_container, calculateLayout_image]
        norm_num [PREVIEW_WIDTH])
    (by norm_num)
    (by rw [calculateLayout_container, calculateLayout_image]
        norm_num [PREVIEW_WIDTH])
    (by norm_num)
  exact ⟨h.1, h.2.2.1, h.2.2.2.2.2.2.1⟩

/-! ## C7: atomic export batch -/

/-- C7.  Atomic export batch: if any target's encode (or drawable-surface
acquisition) rejects, `Promise.all` rejects, control reaches the `catch`
block, the previously stored result set is returned exactly as it was and
the user-visible failure alert is raised; when every target's encode
succeeds the fresh complete result set replaces the old one in a single
assignment and no alert is raised. -/
theorem cropBatch_atomic (prev : List (String × CroppedResult))
    (outcomes : List (String × Option CroppedResult))
    (results : List (String × CroppedResult)) :
    ((∃ o ∈ outcomes, o.2 = none) →
      handleCropCommit prev outcomes = (prev, true)) ∧
    handleCropCommit prev (results.map fun p => (p.1, some p.2)) =
      (results, false) := by
  constructor
  · rintro ⟨o, ho, hnone⟩
    have hall : outcomes.all (fun o => o.2.isSome) = false := by
      rw [List.all_eq_false]
      exact ⟨o, ho, by simp [hnone]⟩
    simp [handleCropCommit, hall]
  · have hall : (results.map fun p => (p.1, some p.2)).all
        (fun o => o.2.isSome) = true := by
      rw [List.all_eq_true]
      rintro o ho
      rw [List.mem_map] at ho
      obtain ⟨p, -, rfl⟩ := ho
      rfl
    simp only [handleCropCommit, hall, if_true]
    refine Prod.ext ?_ rfl
    show ((results.map fun p => (p.1, some p.2)).filterMap
      (fun o => o.2.map (fun r => (o.1, r)))) = results
    rw [List.filterMap_map]
    have h : ((fun (o : String × Option CroppedResult) =>
        Option.map (fun r => (o.1, r)) o.2) ∘
        fun (p : String × CroppedResult) => (p.1, some p.2)) =
        fun p => some p := by
      funext p
      simp
    rw [h]
    exact List.filterMap_some results

/-- C7 witness: with a stored result for `desktop`, a batch in which the
`desktop` encode fails leaves the stored set untouched and raises the alert,
while an all-success batch commits the complete fresh set. -/
theorem cropBatch_witness :
    handleCropCommit [("desktop", ⟨"blob:old", 10⟩)]
        [("mobile", some ⟨"blob:m", 5⟩), ("desktop", none)] =
      ([("desktop", ⟨"blob:old", 10⟩)], true) ∧
    handleCropCommit [("desktop", ⟨"blob:old", 10⟩)]
        [("mobile", some ⟨"blob:m", 5⟩), ("desktop", some ⟨"blob:d", 7⟩)] =
      ([("mobile", ⟨"blob:m", 5⟩), ("desktop", ⟨"blob:d", 7⟩)], false) :=
  ⟨(cropBatch_atomic [("desktop", ⟨"blob:old", 10⟩)]
      [("mobile", some ⟨"blob:m", 5⟩), ("desktop", none)] []).1
      ⟨("desktop", none), by simp, rfl⟩,
    (cropBatch_atomic [("desktop", ⟨"blob:old", 10⟩)]
      [("mobile", some ⟨"blob:m", 5⟩), ("desktop", some ⟨"blob:d", 7⟩)]
      [("mobile", ⟨"blob:m", 5⟩), ("desktop", ⟨"blob:d", 7⟩)]).2⟩

/-! ## C8: invalid upload rejection -/

/-- C8.  Invalid upload rejection: a file whose declared MIME type does not
start with `image/` is never passed to the upload handler (`none`: the
uploader itself changes no state, so nothing happens), a file whose declared
type does start with `image/` is passed to the handler unchanged, and this
holds identically for the file-picker path (`handleFileChange`) and the
drag-and-drop path (`handleDrop`); with no file at all nothing is invoked
either. -/
theorem uploadGuard_spec (f : JSFile) :
    (jsStartsWith f.type "image/" = false →
      handleFileChange (some f) = none ∧ handleDrop (some f) = none) ∧
    (jsStartsWith f.type "image/" = true →
      handleFileChange (some f) = some f ∧ handleDrop (some f) = some f) ∧
    handleFileChange none = none ∧ handleDrop none = none := by
  refine ⟨?_, ?_, rfl, rfl⟩
  · intro h
    constructor <;> simp [handleFileChange, handleDrop, h]
  · intro h
    constructor <;> simp [handleFileChange, handleDrop, h]

/-- C8 witness: a `text/plain` file is silently rejected on both paths and
an `image/png` file is handed to the upload handler on both paths. -/
theorem uploadGuard_witness :
    (handleFileChange (some ⟨"notes.txt", "text/plain"⟩) = none ∧
      handleDrop (some ⟨"notes.txt", "text/plain"⟩) = none) ∧
    (handleFileChange (some ⟨"photo.png", "image/png"⟩) =
        some ⟨"photo.png", "image/png"⟩ ∧
      handleDrop (some ⟨"photo.png", "image/png"⟩) =
        some ⟨"photo.png", "image/png"⟩) :=
  ⟨(uploadGuard_spec ⟨"notes.txt", "text/plain"⟩).1 (by decide),
    (uploadGuard_spec ⟨"photo.png", "image/png"⟩).2.1 (by decide)⟩

/-! ## C9: output filename -/

/-- C9.  Output filename: with `outputWidth = round(width * scale)` and
`outputHeight = round(height * scale)`, the generated filename is
`baseName ++ suffix ++ "_" ++ outputWidth ++ "x" ++ outputHeight ++ ".webp"`
when the target has a (JS-truthy, i.e. nonempty) suffix and
`baseName ++ "_" ++ outputWidth ++ "x" ++ outputHeight ++ ".webp"` when it
has none (an absent or empty suffix; for the empty suffix both shapes
denote the same string). -/
theorem outputFilename_spec (b : String) (t : CropTarget) (s : ℚ) :
    (∀ sfx : String, t.suffix = some sfx → sfx ≠ "" →
      getOutputFilename b t s =
        b ++ sfx ++ "_" ++ toString (outputWidth t s) ++ "x" ++
          toString (outputHeight t s) ++ ".webp") ∧
    ((t.suffix = none ∨ t.suffix = some "") →
      getOutputFilename b t s =
        b ++ "_" ++ toString (outputWidth t s) ++ "x" ++
          toString (outputHeight t s) ++ ".webp") ∧
    outputWidth t s = jsRound (t.width * s) ∧
    outputHeight t s = jsRound (t.height * s) := by
  refine ⟨?_, ?_, rfl, rfl⟩
  · intro sfx hs hne
    simp [getOutputFilename, jsTruthy, hs, hne]
  · rintro (h | h) <;> simp [getOutputFilename, jsTruthy, h]

/-- C9 witness: the mobile target (1091×1000, suffix `_S`) at scale 1 with
base name `photo` produces `photo_S_1091x1000.webp`. -/
theorem outputFilename_witness :
    getOutputFilename "photo" ⟨"mobile", 1091, 1000, some "_S", some "Mobile"⟩
      1 = "photo_S_1091x1000.webp" := by
  have h := (outputFilename_spec "photo"
    ⟨"mobile", 1091, 1000, some "_S", some "Mobile"⟩ 1).1 "_S" rfl (by decide)
  rw [h]
  have hw : outputWidth ⟨"mobile", 1091, 1000, some "_S", some "Mobile"⟩ 1 =
      1091 := by
    norm_num [outputWidth, jsRound]
  have hh : outputHeight ⟨"mobile", 1091, 1000, some "_S", some "Mobile"⟩ 1 =
      1000 := by
    norm_num [outputHeight, jsRound]
  rw [hw, hh]
  decide

/-! ## C10: initial centering -/

/-- C10.  Initial centering: immediately after a successful upload every
derived target's state has zoom 1, output scale 1 and pan position
`((Cw − Iw)/2, (Ch − Ih)/2)` for that target's cover layout; since the cover
layout guarantees `Iw ≥ Cw` and `Ih ≥ Ch` (for positive dimensions), this
initial position already satisfies the clamp invariant
`Cw − Iw ≤ x ≤ 0` and `Ch − Ih ≤ y ≤ 0` at zoom 1, so the covering
invariant holds in the initial state. -/
theorem initialState_spec (imgInfo : ImageInfo) (t : CropTarget)
    (st : TargetState)
    (htw : 0 < t.width) (hth : 0 < t.height)
    (hw : 0 < imgInfo.width) (hh : 0 < imgInfo.height)
    (hmem : (t, st) ∈ uploadInit imgInfo) :
    st.zoom = 1 ∧ st.scale = 1 ∧
    st.position = initialPosition t imgInfo ∧
    (calculateLayout t imgInfo).container.width -
        (calculateLayout t imgInfo).image.width * 1 ≤ st.position.x ∧
    st.position.x ≤ 0 ∧
    (calculateLayout t imgInfo).container.height -
        (calculateLayout t imgInfo).image.height * 1 ≤ st.position.y ∧
    st.position.y ≤ 0 := by
  simp only [uploadInit, List.mem_map] at hmem
  obtain ⟨t', ht', heq⟩ := hmem
  rw [Prod.mk.injEq] at heq
  obtain ⟨rfl, hst⟩ := heq
  subst hst
  obtain ⟨hcw, hch⟩ := calculateLayout_cover t' imgInfo htw hth hw hh
  simp only [initialPosition]
  refine ⟨trivial, trivial, trivial, ?_, ?_, ?_, ?_⟩ <;> linarith

/-- C10 witness: uploading a 2000×1000 image initializes the mobile target's
state to zoom 1, scale 1 and the centered position, which satisfies the
clamp bounds. -/
theorem initialState_witness :
    (⟨initialPosition ⟨"mobile", 1091, 1000, some "_S", some "Mobile"⟩
          ⟨2000, 1000, "img"⟩, 1, 1⟩ : TargetState).zoom = 1 ∧
    (⟨initialPosition ⟨"mobile", 1091, 1000, some "_S", some "Mobile"⟩
          ⟨2000, 1000, "img"⟩, 1, 1⟩ : TargetState).scale = 1 ∧
    (⟨initialPosition ⟨"mobile", 1091, 1000, some "_S", some "Mobile"⟩
          ⟨2000, 1000, "img"⟩, 1, 1⟩ : TargetState).position =
      initialPosition ⟨"mobile", 1091, 1000, some "_S", some "Mobile"⟩
        ⟨2000, 1000, "img"⟩ ∧
    (calculateLayout ⟨"mobile", 1091, 1000, some "_S", some "Mobile"⟩
          ⟨2000, 1000, "img"⟩).container.width -
        (calculateLayout ⟨"mobile", 1091, 1000, some "_S", some "Mobile"⟩
          ⟨2000, 1000, "img"⟩).image.width * 1 ≤
      (⟨initialPosition ⟨"mobile", 1091, 1000, some "_S", some "Mobile"⟩
          ⟨2000, 1000, "img"⟩, 1, 1⟩ : TargetState).position.x ∧
    (⟨initialPosition ⟨"mobile", 1091, 1000, some "_S", some "Mobile"⟩
          ⟨2000, 1000, "img"⟩, 1, 1⟩ : TargetState).position.x ≤ 0 ∧
    (calculateLayout ⟨"mobile", 1091, 1000, some "_S", some "Mobile"⟩
          ⟨2000, 1000, "img"⟩).container.height -
        (calculateLayout ⟨"mobile", 1091, 1000, some "_S", some "Mobile"⟩
          ⟨2000, 1000, "img"⟩).image.height * 1 ≤
      (⟨initialPosition ⟨"mobile", 1091, 1000, some "_S", some "Mobile"⟩
          ⟨2000, 1000, "img"⟩, 1, 1⟩ : TargetState).position.y ∧
    (⟨initialPosition ⟨"mobile", 1091, 1000, some "_S", some "Mobile"⟩
          ⟨2000, 1000, "img"⟩, 1, 1⟩ : TargetState).position.y ≤ 0 := by
  refine initialState_spec ⟨2000, 1000, "img"⟩
    ⟨"mobile", 1091, 1000, some "_S", some "Mobile"⟩
    ⟨initialPosition ⟨"mobile", 1091, 1000, some "_S", some "Mobile"⟩
      ⟨2000, 1000, "img"⟩, 1, 1⟩
    (by norm_num) (by norm_num) (by norm_num) (by norm_num) ?_
  have h1 : deriveTarget ⟨"mobile", "Mobile", 1055, 967, "_S"⟩ 2000 1000 =
      ⟨"mobile", 1091, 1000, some "_S", some "Mobile"⟩ := by
    have hcond : (2000 : ℚ) / (1055 / 967) > 1000 := by norm_num
    simp only [deriveTarget, CropTarget.mk.injEq, hcond, if_true]
    norm_num
  simp only [uploadInit, deriveTargets, CROP_PRESETS, List.map_cons,
    List.map_nil]
  rw [List.mem_cons]
  left
  rw [h1]

end EasyCrop
